import Mathlib

/-!
Shallow embedding of the aquaponics sensor server (Express + MongoDB with a
bounded in-memory fallback buffer). The handlers are translated from
src/unnamed/part_000 (the dual-backend variant; src/server.js is the
local-only variant whose shared lines are identical). External collaborators
(the JS builtins toLocaleString, Number, parseInt, slice and the MongoDB
driver) are modelled explicitly where the handlers depend on their behavior.
-/

/-- Decimal digit character for a value below ten: 0 maps to the character 0,
and so on. Used to model JS number-to-string rendering. -/
def digitChar (n : Nat) : Char := Char.ofNat (48 + n)

/-- Decimal digit characters of a natural number, most significant first,
with an explicit fuel argument so the definition evaluates by kernel
reduction. -/
def natCharsAux : Nat → Nat → List Char
  | 0, _ => []
  | fuel + 1, n =>
    if n < 10 then [digitChar n] else natCharsAux fuel (n / 10) ++ [digitChar (n % 10)]

/-- Decimal digit characters of a natural number, most significant first. -/
def natChars (n : Nat) : List Char := natCharsAux (n + 1) n

/-- Model of the JS toString conversion on a nonnegative integer, as in
the expression Date.now().toString() that stamps the provisional id. -/
def natToString (n : Nat) : String := String.mk (natChars n)

/-- Model of the Intl 2-digit field rendering: pad to two digits with a
leading zero. All fields it is applied to are below 100. -/
def pad2 (n : Nat) : List Char := if n < 10 then '0' :: natChars n else natChars n

/-- Numeric value of a list of decimal digit characters, most significant
first. -/
def digitsVal (cs : List Char) : Nat := cs.foldl (fun a c => 10 * a + (c.toNat - 48)) 0

/-- Maximal run of decimal digits at the head of the list, paired with the
remainder. Models the greedy digit atom of the date-rewrite regex in
getISTDateTime. -/
def matchDigits : List Char → List Char × List Char
  | [] => ([], [])
  | c :: cs =>
    if c.isDigit then (c :: (matchDigits cs).1, (matchDigits cs).2) else ([], c :: cs)

/-- Attempt to match the date regex (three runs of digits separated by
slashes) at the head of the list; on success return the whole list with the
match replaced by group 3, group 1, group 2 joined by dashes, as the
replacement template of getISTDateTime prescribes. -/
def tryMatch (l : List Char) : Option (List Char) :=
  let m1 := matchDigits l
  if m1.1 = [] then none
  else if m1.2.head? = some '/' then
    let m2 := matchDigits m1.2.tail
    if m2.1 = [] then none
    else if m2.2.head? = some '/' then
      let m3 := matchDigits m2.2.tail
      if m3.1 = [] then none
      else some (m3.1 ++ '-' :: m1.1 ++ '-' :: m2.1 ++ m3.2)
    else none
  else none

/-- Left-to-right scan applying the date pattern at the first position where
it matches; models String.replace with a non-global regex. -/
def replaceFirst : List Char → List Char
  | [] => []
  | c :: cs =>
    match tryMatch (c :: cs) with
    | some r => r
    | none => c :: replaceFirst cs

/-- UTC+5:30 offset in milliseconds (the Asia/Kolkata timezone, which has no
daylight saving). -/
def istOffsetMs : Nat := 19800000

/-- Seconds on the IST wall clock since the Unix epoch, for the UTC instant
given in milliseconds since the epoch. -/
def istSecs (ms : Nat) : Nat := (ms + istOffsetMs) / 1000

/-- Whole days on the IST wall clock since the epoch. -/
def istDayNum (ms : Nat) : Nat := istSecs ms / 86400

/-- Hour of day (0 to 23) on the IST wall clock. -/
def istHour (ms : Nat) : Nat := istSecs ms / 3600 % 24

/-- Minute of hour on the IST wall clock. -/
def istMin (ms : Nat) : Nat := istSecs ms / 60 % 60

/-- Second of minute on the IST wall clock. -/
def istSec (ms : Nat) : Nat := istSecs ms % 60

/-- Day-of-era for the standard era-based civil-from-days conversion. -/
def cfdDoe (z : Nat) : Nat := (z + 719468) % 146097

/-- Era number for the civil-from-days conversion. -/
def cfdEra (z : Nat) : Nat := (z + 719468) / 146097

/-- Year-of-era for the civil-from-days conversion. -/
def cfdYoe (z : Nat) : Nat :=
  (cfdDoe z - cfdDoe z / 1460 + cfdDoe z / 36524 - cfdDoe z / 146096) / 365

/-- Day-of-year (March-based) for the civil-from-days conversion. -/
def cfdDoy (z : Nat) : Nat := cfdDoe z - (365 * cfdYoe z + cfdYoe z / 4 - cfdYoe z / 100)

/-- March-based month index for the civil-from-days conversion. -/
def cfdMp (z : Nat) : Nat := (5 * cfdDoy z + 2) / 153

/-- Day of month of the civil date for a day number on or after the epoch. -/
def civilDay (z : Nat) : Nat := cfdDoy z - (153 * cfdMp z + 2) / 5 + 1

/-- Month (1 to 12) of the civil date for a day number on or after the epoch. -/
def civilMonth (z : Nat) : Nat := if cfdMp z < 10 then cfdMp z + 3 else cfdMp z - 9

/-- Year of the civil date for a day number on or after the epoch. -/
def civilYear (z : Nat) : Nat :=
  cfdYoe z + cfdEra z * 400 + (if civilMonth z ≤ 2 then 1 else 0)

/-- Year on the IST wall clock. -/
def istYear (ms : Nat) : Nat := civilYear (istDayNum ms)

/-- Month on the IST wall clock. -/
def istMonth (ms : Nat) : Nat := civilMonth (istDayNum ms)

/-- Day of month on the IST wall clock. -/
def istDay (ms : Nat) : Nat := civilDay (istDayNum ms)

/-- Model of the builtin toLocaleString call made by getISTDateTime: en-US
locale, timezone Asia/Kolkata, numeric year, 2-digit month, day, hour, minute
and second, 24-hour clock. The en-US rendering of these options is
MM/DD/YYYY, HH:MM:SS — note the comma and space between date and time. -/
def toLocaleStringEnUS (ms : Nat) : List Char :=
  pad2 (istMonth ms) ++ '/' :: (pad2 (istDay ms) ++ '/' :: (natChars (istYear ms) ++
    (',' :: ' ' :: (pad2 (istHour ms) ++ ':' :: (pad2 (istMin ms) ++ ':' :: pad2 (istSec ms))))))

/-- Embedding of getISTDateTime (part_000 lines 16-27, server.js lines
15-26): render the instant with toLocaleString, then rewrite the leading
MM/DD/YYYY group to YYYY-MM-DD with a regex replace. The instant is passed
explicitly, in milliseconds since the Unix epoch, for testability. -/
def getISTDateTime (ms : Nat) : String := String.mk (replaceFirst (toLocaleStringEnUS ms))

/-- The string getISTDateTime actually produces: YYYY-MM-DD, HH:MM:SS. The
comma and space of the en-US locale rendering survive the regex replace,
which only touches the slash-separated date group. -/
def istExpected (ms : Nat) : String :=
  String.mk (natChars (istYear ms) ++ '-' :: (pad2 (istMonth ms) ++ '-' :: (pad2 (istDay ms) ++
    (',' :: ' ' :: (pad2 (istHour ms) ++ ':' :: (pad2 (istMin ms) ++ ':' :: pad2 (istSec ms)))))))

/-- Formalization of the format the claim asserts, from the words of the
spec: exactly YYYY-MM-DD HH:MM:SS — four digits, dash, two digits, dash, two
digits, one single space, then a 24-hour HH:MM:SS time, with no other
characters. -/
def specTimestampFormat (s : String) : Bool :=
  match s.data with
  | [y1, y2, y3, y4, h1, m1, m2, h2, d1, d2, sp, a1, a2, c1, b1, b2, c2, e1, e2] =>
    y1.isDigit && y2.isDigit && y3.isDigit && y4.isDigit && h1 == '-' && m1.isDigit &&
      m2.isDigit && h2 == '-' && d1.isDigit && d2.isDigit && sp == ' ' && a1.isDigit &&
      a2.isDigit && c1 == ':' && b1.isDigit && b2.isDigit && c2 == ':' && e1.isDigit &&
      e2.isDigit
  | _ => false

/-- A JS number: either NaN or a finite numeric value, modelled as a
rational. -/
inductive JSNum
  | nan
  | num (q : Rat)
deriving DecidableEq

/-- A JSON value that can occupy a request-body field: null, a number, or a
string. A field that is absent altogether (undefined) is represented by
Option.none at the use site. -/
inductive BodyVal
  | vnull
  | vnum (q : Rat)
  | vstr (s : String)
deriving DecidableEq

/-- Fractional decimal value built from integer-part and fraction-part digit
runs, for the Number coercion model. -/
def decimalOfDigits (ip fp : List Char) : JSNum :=
  JSNum.num ((digitsVal ip : Rat) + (digitsVal fp : Rat) / (10 : Rat) ^ fp.length)

/-- Negate a JS number when the sign flag is set; NaN is unaffected. -/
def applySign (neg : Bool) : JSNum → JSNum
  | JSNum.nan => JSNum.nan
  | JSNum.num q => JSNum.num (if neg then -q else q)

/-- Unsigned decimal-literal parse for the Number coercion model: a digit run,
optionally followed by a point and another digit run; anything else is NaN. -/
def parseUnsignedDecimal (cs : List Char) : JSNum :=
  let ip := cs.takeWhile Char.isDigit
  let rest := cs.dropWhile Char.isDigit
  match rest with
  | [] => if ip.isEmpty then JSNum.nan else JSNum.num (digitsVal ip : Rat)
  | '.' :: fp =>
    if fp.all Char.isDigit && !(ip.isEmpty && fp.isEmpty) then decimalOfDigits ip fp
    else JSNum.nan
  | _ => JSNum.nan

/-- Model of the JS Number coercion on a string: trim spaces, accept an
optionally signed decimal literal, map the empty string to 0 and everything
else to NaN. -/
def strToNumber (s : String) : JSNum :=
  let cs := ((s.data.dropWhile (fun c => c == ' ')).reverse.dropWhile (fun c => c == ' ')).reverse
  if cs.isEmpty then JSNum.num 0
  else if cs.head? = some '-' then applySign true (parseUnsignedDecimal cs.tail)
  else if cs.head? = some '+' then applySign false (parseUnsignedDecimal cs.tail)
  else applySign false (parseUnsignedDecimal cs)

/-- Model of the JS Number coercion on the body values the validation lets
through, plus null for completeness: Number of null is 0. -/
def jsNumberOf : BodyVal → JSNum
  | BodyVal.vnull => JSNum.num 0
  | BodyVal.vnum q => JSNum.num q
  | BodyVal.vstr s => strToNumber s

/-- Number coercion lifted to a possibly absent field: Number of undefined is
NaN. -/
def jsNumberOpt : Option BodyVal → JSNum
  | none => JSNum.nan
  | some v => jsNumberOf v

/-- The POST /api/sensor-data request body: each of the three fields is
absent (undefined), null, or a JSON value. -/
structure Body where
  waterLevel : Option BodyVal
  temperatureCelsius : Option BodyVal
  temperatureFahrenheit : Option BodyVal
deriving DecidableEq

/-- The validation test the POST handler applies to each field (part_000
lines 84-86, server.js lines 52-54): rejects exactly undefined and null. -/
def isMissing : Option BodyVal → Bool
  | none => true
  | some BodyVal.vnull => true
  | some _ => false

/-- A body passes validation when none of its three fields is missing. -/
def validBody (b : Body) : Bool :=
  !(isMissing b.waterLevel || isMissing b.temperatureCelsius ||
      isMissing b.temperatureFahrenheit)

/-- A sensor reading as served on the wire and stored in the local buffer. -/
structure Reading where
  waterLevel : JSNum
  temperatureCelsius : JSNum
  temperatureFahrenheit : JSNum
  timestamp : String
  id : String
deriving DecidableEq

/-- A document of the durable (MongoDB) store: the sensorSchema fields plus
the database-assigned object id. Creation order is carried by the position in
the state list, newest first, so a query sorted by createdAt descending is
the list itself. -/
structure DbDoc where
  waterLevel : JSNum
  temperatureCelsius : JSNum
  temperatureFahrenheit : JSNum
  istTimestamp : String
  oid : String
deriving DecidableEq

/-- The mutable state the handlers touch: the durable store contents (newest
first) and the local fallback buffer localDataStore.sensorData (newest
first). -/
structure ServerState where
  dbData : List DbDoc
  sensorData : List Reading
deriving DecidableEq

/-- The state at process start: both backends empty. -/
def emptyState : ServerState := { dbData := [], sensorData := [] }

/-- Per-request environment: the facts about the outside world one request
observes. dbConnected models the readyState check of isDbConnected; dbFail
models the durable operation of this request throwing; tsInstant is the clock
read inside getISTDateTime; idInstant is the Date.now() read for the
provisional id; dbObjectId is the object id the database would assign on a
successful create. -/
structure ReqEnv where
  dbConnected : Bool
  dbFail : Bool
  tsInstant : Nat
  idInstant : Nat
  dbObjectId : String
deriving DecidableEq

/-- Response payloads the three handlers can produce; the failure constructor
carries the success-false envelopes, the others carry success-true
envelopes. -/
inductive RespBody
  | postSuccess (message : String) (latestData : Reading)
  | failure (message : String)
  | listData (data : List Reading)
  | latestData (data : Reading)
deriving DecidableEq

/-- An HTTP response: status code and JSON payload. -/
structure HttpResponse where
  status : Nat
  body : RespBody
deriving DecidableEq

/-- The latestData field of a create response, when present. -/
def latestOf : RespBody → Option Reading
  | RespBody.postSuccess _ r => some r
  | _ => none

/-- The data field of a list response, when present. -/
def dataOf : RespBody → Option (List Reading)
  | RespBody.listData l => some l
  | _ => none

/-- Whether the payload is a success-false envelope. -/
def isFailureBody : RespBody → Bool
  | RespBody.failure _ => true
  | _ => false

/-- The normalization applied to a durable-store document before it is sent
to the client (part_000 lines 111-117, 165-171 and 203-209). -/
def docToReading (d : DbDoc) : Reading :=
  { waterLevel := d.waterLevel
    temperatureCelsius := d.temperatureCelsius
    temperatureFahrenheit := d.temperatureFahrenheit
    timestamp := d.istTimestamp
    id := d.oid }

/-- The already-stamped entry the POST handler builds (part_000 lines 93-99):
Number coercion of the three fields, IST timestamp, provisional id from
Date.now().toString(). -/
def mkEntry (env : ReqEnv) (b : Body) : Reading :=
  { waterLevel := jsNumberOpt b.waterLevel
    temperatureCelsius := jsNumberOpt b.temperatureCelsius
    temperatureFahrenheit := jsNumberOpt b.temperatureFahrenheit
    timestamp := getISTDateTime env.tsInstant
    id := natToString env.idInstant }

/-- The local-buffer insertion of part_000 lines 134-137 (server.js lines
71-74): unshift the entry, then cap the buffer at 100 entries. -/
def localStoreInsert (r : Reading) (l : List Reading) : List Reading :=
  let l2 := r :: l
  if l2.length > 100 then l2.take 100 else l2

/-- Embedding of the POST /api/sensor-data handler (part_000 lines 75-151).
A successful SensorData.create stores a document carrying the entry fields
with the database-assigned id and the response echoes that document; on a
create failure, or when not connected, the handler falls through to the local
buffer. The final catch (local-store failure, status 500) is unreachable here
because the in-memory insert cannot throw. -/
def postSensorData (env : ReqEnv) (b : Body) (st : ServerState) :
    HttpResponse × ServerState :=
  if isMissing b.waterLevel || isMissing b.temperatureCelsius ||
      isMissing b.temperatureFahrenheit then
    ({ status := 400
       body := RespBody.failure
         "Missing required fields: waterLevel, temperatureCelsius, or temperatureFahrenheit" },
      st)
  else
    let entry := mkEntry env b
    if env.dbConnected && !env.dbFail then
      let doc : DbDoc :=
        { waterLevel := entry.waterLevel
          temperatureCelsius := entry.temperatureCelsius
          temperatureFahrenheit := entry.temperatureFahrenheit
          istTimestamp := entry.timestamp
          oid := env.dbObjectId }
      ({ status := 200
         body := RespBody.postSuccess "Data stored successfully (db)" (docToReading doc) },
        { st with dbData := doc :: st.dbData })
    else
      ({ status := 200
         body := RespBody.postSuccess "Data stored locally (fallback)" entry },
        { st with sensorData := localStoreInsert entry st.sensorData })

/-- Model of parseInt with radix 10: skip leading spaces, accept an optional
sign, then take the leading run of decimal digits; none (NaN) when no digit
is found, trailing junk ignored. -/
def jsParseIntStr (s : String) : Option Int :=
  let cs := s.data.dropWhile (fun c => c == ' ')
  let signed : Bool × List Char :=
    if cs.head? = some '-' then (true, cs.tail)
    else if cs.head? = some '+' then (false, cs.tail)
    else (false, cs)
  let ds := signed.2.takeWhile Char.isDigit
  if ds.isEmpty then none
  else some (if signed.1 then -(digitsVal ds : Int) else (digitsVal ds : Int))

/-- parseInt applied to a query parameter that may be absent; parseInt of
undefined is NaN. -/
def jsParseIntOpt : Option String → Option Int
  | none => none
  | some s => jsParseIntStr s

/-- The limit computation of part_000 line 155 (server.js line 92):
parseInt(req.query.limit, 10) or-else 10. NaN and 0 are falsy and default to
10; a negative value is truthy and is kept. -/
def computeLimit (q : Option String) : Int :=
  match jsParseIntOpt q with
  | none => 10
  | some v => if v = 0 then 10 else v

/-- Model of the builtin slice(0, e) with a possibly negative end index: a
negative end counts from the end of the array. -/
def jsSlice (e : Int) (l : List Reading) : List Reading :=
  if 0 ≤ e then l.take e.toNat else l.take (l.length - e.natAbs)

/-- Model of the driver query find().sort(createdAt descending).limit(n):
dbData is kept newest-first, and MongoDB treats a negative limit like its
absolute value. -/
def mongoLimit (n : Int) (docs : List DbDoc) : List DbDoc := docs.take n.natAbs

/-- Embedding of the GET /api/sensor-data handler (part_000 lines 154-193,
server.js lines 91-108): compute the limit, serve from the durable store when
connected and the query succeeds, otherwise slice the local buffer. The final
catch (status 500) is unreachable here because the in-memory slice cannot
throw. -/
def getSensorData (env : ReqEnv) (q : Option String) (st : ServerState) :
    HttpResponse × ServerState :=
  let limit := computeLimit q
  if env.dbConnected && !env.dbFail then
    ({ status := 200
       body := RespBody.listData ((mongoLimit limit st.dbData).map docToReading) }, st)
  else
    ({ status := 200, body := RespBody.listData (jsSlice limit st.sensorData) }, st)

/-- The shared tail of the latest-reading handler: front of the local buffer,
or 404 when the buffer is empty. -/
def localLatestResp (st : ServerState) : HttpResponse × ServerState :=
  match st.sensorData.head? with
  | some r => ({ status := 200, body := RespBody.latestData r }, st)
  | none => ({ status := 404, body := RespBody.failure "No data available" }, st)

/-- Embedding of the GET /api/sensor-data/latest handler (part_000 lines
196-232): when connected and the query succeeds with a document, return it;
when the query returns nothing, or throws, or the store is not connected,
fall through to the front of the local buffer, and 404 when that is empty
too. -/
def getLatestSensorData (env : ReqEnv) (st : ServerState) :
    HttpResponse × ServerState :=
  if env.dbConnected && !env.dbFail then
    match st.dbData.head? with
    | some d => ({ status := 200, body := RespBody.latestData (docToReading d) }, st)
    | none => localLatestResp st
  else localLatestResp st

/-- Left fold of the local-buffer insertion over a creation-ordered list of
readings. -/
def insertAll (rs : List Reading) (init : List Reading) : List Reading :=
  rs.foldl (fun l r => localStoreInsert r l) init

/-- Run a sequence of POST requests, threading the server state. -/
def postSeq (inputs : List (ReqEnv × Body)) (st : ServerState) : ServerState :=
  inputs.foldl (fun s x => (postSensorData x.1 x.2 s).2) st

/-- Fixture: environment with the durable store not connected. -/
def envDown : ReqEnv :=
  { dbConnected := false, dbFail := false, tsInstant := 0, idInstant := 0, dbObjectId := "" }

/-- Fixture: environment connected but with the durable operation throwing. -/
def envLiveFail : ReqEnv :=
  { dbConnected := true, dbFail := true, tsInstant := 0, idInstant := 0, dbObjectId := "" }

/-- Fixture: environment connected with the durable operation succeeding. -/
def envLive : ReqEnv :=
  { dbConnected := true, dbFail := false, tsInstant := 0, idInstant := 0, dbObjectId := "oid0" }

/-- Fixture: a valid numeric request body. -/
def bodyW : Body :=
  { waterLevel := some (BodyVal.vnum 1), temperatureCelsius := some (BodyVal.vnum 2)
    temperatureFahrenheit := some (BodyVal.vnum 3) }

/-- Fixture: a request body with the Celsius field absent. -/
def bodyNoCelsius : Body :=
  { waterLevel := some (BodyVal.vnum 1), temperatureCelsius := none
    temperatureFahrenheit := some (BodyVal.vnum 2) }

/-- A request body whose three fields are the given numbers. -/
def numBody (a b c : Rat) : Body :=
  { waterLevel := some (BodyVal.vnum a), temperatureCelsius := some (BodyVal.vnum b)
    temperatureFahrenheit := some (BodyVal.vnum c) }

/-- A request body whose three fields are all the non-numeric string abc. -/
def abcBody : Body :=
  { waterLevel := some (BodyVal.vstr "abc"), temperatureCelsius := some (BodyVal.vstr "abc")
    temperatureFahrenheit := some (BodyVal.vstr "abc") }

/-- Fixture: reading number i, distinct readings for buffer experiments. -/
def mkR (i : Nat) : Reading :=
  { waterLevel := JSNum.num 0, temperatureCelsius := JSNum.num 0
    temperatureFahrenheit := JSNum.num 0, timestamp := "", id := natToString i }

/-- Fixture: one hundred distinct readings. -/
def restW : List Reading := (List.range 100).map (fun i => mkR (i + 1))

/-- Fixture: one hundred and one distinct readings, mkR 0 first. -/
def rsW : List Reading := mkR 0 :: restW

/-- Fixture: one hundred and one identical valid POST requests with the
durable store down. -/
def inputs101 : List (ReqEnv × Body) := List.replicate 101 (envDown, bodyW)

/-- Fixture: two valid POST requests with the durable store down. -/
def inputs2 : List (ReqEnv × Body) := [(envDown, bodyW), (envDown, numBody 4 5 6)]

/-- Fixture: a durable-store document. -/
def docW : DbDoc :=
  { waterLevel := JSNum.num 5, temperatureCelsius := JSNum.num 6
    temperatureFahrenheit := JSNum.num 7, istTimestamp := "t", oid := "x" }

/-- Fixture: a state with three readings in the local buffer and nothing
durable. -/
def st3 : ServerState := { dbData := [], sensorData := [mkR 0, mkR 1, mkR 2] }

/-- Fixture: a state with one durable document and an empty local buffer. -/
def stDbOnly : ServerState := { dbData := [docW], sensorData := [] }

/-- Fixture: a state with an empty durable store and one local reading. -/
def stLocalOnly : ServerState := { dbData := [], sensorData := [mkR 7] }

/-! Helper lemmas about digit rendering. -/

theorem digitChar_isDigit {n : Nat} (h : n < 10) : (digitChar n).isDigit = true := by
  interval_cases n <;> decide

theorem digitChar_toNat {n : Nat} (h : n < 10) : (digitChar n).toNat = 48 + n := by
  interval_cases n <;> decide

theorem natCharsAux_stable (n : Nat) :
    ∀ f g, n < f → n < g → natCharsAux f n = natCharsAux g n := by
  induction n using Nat.strong_induction_on with
  | _ n ih =>
    intro f g hf hg
    cases f with
    | zero => omega
    | succ f =>
      cases g with
      | zero => omega
      | succ g =>
        simp only [natCharsAux]
        by_cases h10 : n < 10
        · simp [h10]
        · have hd : n / 10 < n := Nat.div_lt_self (by omega) (by omega)
          simp only [h10, if_false]
          rw [ih (n / 10) hd f g (by omega) (by omega)]

theorem natChars_unfold (n : Nat) :
    natChars n = if n < 10 then [digitChar n] else natChars (n / 10) ++ [digitChar (n % 10)] := by
  by_cases h : n < 10
  · simp only [h, if_true, natChars, natCharsAux]
  · simp only [h, if_false, natChars]
    have e1 : natCharsAux (n + 1) n = natCharsAux n (n / 10) ++ [digitChar (n % 10)] := by
      simp [natCharsAux, h]
    rw [e1, natCharsAux_stable (n / 10) n (n / 10 + 1) (by omega) (by omega)]

theorem natCharsAux_digits (f : Nat) :
    ∀ n c, c ∈ natCharsAux f n → c.isDigit = true := by
  induction f with
  | zero => intro n c h; simp [natCharsAux] at h
  | succ f ih =>
    intro n c h
    simp only [natCharsAux] at h
    by_cases h10 : n < 10
    · simp [h10] at h
      subst h
      exact digitChar_isDigit h10
    · simp [h10] at h
      rcases h with h | h
      · exact ih _ _ h
      · subst h
        exact digitChar_isDigit (Nat.mod_lt _ (by omega))

theorem natChars_digits (n : Nat) : ∀ c ∈ natChars n, c.isDigit = true :=
  fun c hc => natCharsAux_digits (n + 1) n c hc

theorem natChars_ne_nil (n : Nat) : natChars n ≠ [] := by
  rw [natChars_unfold]
  by_cases h : n < 10 <;> simp [h]

theorem pad2_digits (n : Nat) : ∀ c ∈ pad2 n, c.isDigit = true := by
  intro c hc
  unfold pad2 at hc
  by_cases h : n < 10
  · simp only [h, if_true, List.mem_cons] at hc
    rcases hc with h1 | h1
    · subst h1; decide
    · exact natChars_digits n c h1
  · simp only [h, if_false] at hc
    exact natChars_digits n c hc

theorem pad2_ne_nil (n : Nat) : pad2 n ≠ [] := by
  unfold pad2
  by_cases h : n < 10
  · simp [h]
  · simp [h, natChars_ne_nil]

theorem digitsVal_append (xs : List Char) (c : Char) :
    digitsVal (xs ++ [c]) = 10 * digitsVal xs + (c.toNat - 48) := by
  simp [digitsVal, List.foldl_append]

theorem digitsVal_natChars (n : Nat) : digitsVal (natChars n) = n := by
  induction n using Nat.strong_induction_on with
  | _ n ih =>
    rw [natChars_unfold]
    by_cases h : n < 10
    · simp [h, digitsVal, List.foldl, digitChar_toNat h]
    · have hd : n / 10 < n := Nat.div_lt_self (by omega) (by omega)
      simp only [h, if_false]
      rw [digitsVal_append, ih (n / 10) hd, digitChar_toNat (Nat.mod_lt _ (by omega))]
      omega

/-! Helper lemmas about the date-rewrite regex model. -/

theorem matchDigits_append (ds rest : List Char) (hd : ∀ c ∈ ds, c.isDigit = true)
    (hr : ∀ c, rest.head? = some c → c.isDigit = false) :
    matchDigits (ds ++ rest) = (ds, rest) := by
  induction ds with
  | nil =>
    simp only [List.nil_append]
    cases rest with
    | nil => rfl
    | cons c cs =>
      have hc := hr c rfl
      simp [matchDigits, hc]
  | cons d ds ih =>
    have hdd : d.isDigit = true := hd d (by simp)
    have ih2 := ih (fun c hc => hd c (by simp [hc]))
    simp only [List.cons_append, matchDigits, hdd, if_true, List.append_eq, ih2]

theorem tryMatch_date (a b c rest : List Char)
    (ha : ∀ x ∈ a, x.isDigit = true) (ha0 : a ≠ [])
    (hb : ∀ x ∈ b, x.isDigit = true) (hb0 : b ≠ [])
    (hc : ∀ x ∈ c, x.isDigit = true) (hc0 : c ≠ [])
    (hr : ∀ x, rest.head? = some x → x.isDigit = false) :
    tryMatch (a ++ '/' :: (b ++ '/' :: (c ++ rest))) =
      some (c ++ '-' :: (a ++ '-' :: (b ++ rest))) := by
  have h1 : matchDigits (a ++ '/' :: (b ++ '/' :: (c ++ rest))) =
      (a, '/' :: (b ++ '/' :: (c ++ rest))) :=
    matchDigits_append a ('/' :: (b ++ '/' :: (c ++ rest))) ha (fun x hx => by
      rw [List.head?_cons] at hx
      cases hx
      decide)
  have h2 : matchDigits (b ++ '/' :: (c ++ rest)) = (b, '/' :: (c ++ rest)) :=
    matchDigits_append b ('/' :: (c ++ rest)) hb (fun x hx => by
      rw [List.head?_cons] at hx
      cases hx
      decide)
  have h3 : matchDigits (c ++ rest) = (c, rest) := matchDigits_append c rest hc hr
  simp [tryMatch, h1, h2, h3, ha0, hb0, hc0]

theorem replaceFirst_date (a b c rest : List Char)
    (ha : ∀ x ∈ a, x.isDigit = true) (ha0 : a ≠ [])
    (hb : ∀ x ∈ b, x.isDigit = true) (hb0 : b ≠ [])
    (hc : ∀ x ∈ c, x.isDigit = true) (hc0 : c ≠ [])
    (hr : ∀ x, rest.head? = some x → x.isDigit = false) :
    replaceFirst (a ++ '/' :: (b ++ '/' :: (c ++ rest))) =
      c ++ '-' :: (a ++ '-' :: (b ++ rest)) := by
  have htm := tryMatch_date a b c rest ha ha0 hb hb0 hc hc0 hr
  cases a with
  | nil => exact absurd rfl ha0
  | cons a0 a1 =>
    simp only [List.cons_append] at htm ⊢
    simp only [replaceFirst, htm]

/-- Claim C2 (amended): for every instant, the timestamp string stamped on a
created reading renders that instant in timezone UTC+5:30 in the format
YYYY-MM-DD, HH:MM:SS — a comma and a space separate the date from the
24-hour time, because the comma of the en-US locale rendering survives the
regex replace. -/
theorem C2_timestamp_amended (ms : Nat) : getISTDateTime ms = istExpected ms := by
  unfold getISTDateTime istExpected toLocaleStringEnUS
  congr 1
  exact replaceFirst_date (pad2 (istMonth ms)) (pad2 (istDay ms)) (natChars (istYear ms))
    (',' :: ' ' :: (pad2 (istHour ms) ++ ':' :: (pad2 (istMin ms) ++ ':' :: pad2 (istSec ms))))
    (pad2_digits (istMonth ms)) (pad2_ne_nil (istMonth ms))
    (pad2_digits (istDay ms)) (pad2_ne_nil (istDay ms))
    (natChars_digits (istYear ms)) (natChars_ne_nil (istYear ms))
    (fun x hx => by
      rw [List.head?_cons] at hx
      cases hx
      decide)

/-- Counterexample to claim C2 as stated: at the epoch instant the stamped
string is 1970-01-01, 05:30:00, which does not match the claimed exact
format YYYY-MM-DD HH:MM:SS (date, one space, time, no other characters). -/
theorem C2_counterexample :
    specTimestampFormat (getISTDateTime 0) = false ∧
    getISTDateTime 0 = "1970-01-01, 05:30:00" := by
  constructor <;> decide

/-! Helper lemmas about the bounded local buffer. -/

theorem localStoreInsert_eq_take (r : Reading) (l : List Reading) (h : l.length ≤ 100) :
    localStoreInsert r l = (r :: l).take 100 := by
  simp only [localStoreInsert]
  by_cases h2 : (r :: l).length > 100
  · simp [h2]
  · simp only [h2, if_false]
    rw [List.take_of_length_le (by simp at h2 ⊢; omega)]

theorem take_append_take (xs ys : List Reading) (n : Nat) :
    (xs ++ ys.take n).take n = (xs ++ ys).take n := by
  rw [List.take_append_eq_append_take, List.take_append_eq_append_take, List.take_take]
  have hmin : min (n - xs.length) n = n - xs.length := by omega
  rw [hmin]

theorem insertAll_eq (rs : List Reading) :
    ∀ init : List Reading, init.length ≤ 100 →
      insertAll rs init = (rs.reverse ++ init).take 100 := by
  induction rs with
  | nil =>
    intro init h
    simp only [insertAll, List.foldl_nil, List.reverse_nil, List.nil_append]
    rw [List.take_of_length_le h]
  | cons r rs ih =>
    intro init h
    have hlen : (localStoreInsert r init).length ≤ 100 := by
      rw [localStoreInsert_eq_take r init h]
      simp only [List.length_take]
      omega
    have hstep : insertAll (r :: rs) init = insertAll rs (localStoreInsert r init) := rfl
    rw [hstep, ih (localStoreInsert r init) hlen, localStoreInsert_eq_take r init h,
      take_append_take, List.reverse_cons, List.append_assoc, List.singleton_append]

/-- Claim C3: after any sequence of inserts starting from the empty buffer,
the local buffer holds at most 100 readings, in newest-first order (the
reverse of the insertion order, truncated to the 100 newest); in particular
after 101 inserts the first-inserted reading is evicted — absent whenever it
does not reappear later in the sequence — and exactly the 100 most recent
remain, newest-first. -/
theorem C3_buffer_bounded (rs : List Reading) :
    (insertAll rs []).length ≤ 100 ∧
    insertAll rs [] = rs.reverse.take 100 ∧
    (∀ r rest, rs = r :: rest → rest.length = 100 →
      insertAll rs [] = rest.reverse ∧ (r ∉ rest → r ∉ insertAll rs [])) := by
  have hmain : insertAll rs [] = rs.reverse.take 100 := by
    rw [insertAll_eq rs [] (by simp), List.append_nil]
  refine ⟨?_, hmain, ?_⟩
  · rw [hmain]
    simp only [List.length_take]
    omega
  · intro r rest hrs hlen
    subst hrs
    have h1 : insertAll (r :: rest) [] = rest.reverse := by
      rw [hmain, List.reverse_cons, List.take_left' (by simp [hlen])]
    refine ⟨h1, fun hnot hmem => ?_⟩
    rw [h1, List.mem_reverse] at hmem
    exact hnot hmem

/-- Witness for claim C3: a concrete sequence of 101 distinct readings leaves
exactly the newest 100, newest-first, and the first-inserted one is gone. -/
theorem C3_buffer_bounded_witness :
    (insertAll rsW []).length ≤ 100 ∧
    insertAll rsW [] = restW.reverse ∧
    mkR 0 ∉ insertAll rsW [] := by
  have h := C3_buffer_bounded rsW
  have hlen : restW.length = 100 := by simp [restW]
  have hnot : mkR 0 ∉ restW := by decide
  have h2 := h.2.2 (mkR 0) restW rfl hlen
  exact ⟨h.1, h2.1, h2.2 hnot⟩

/-! Helper lemmas about the parseInt model. -/

theorem takeWhile_all_digits (l : List Char) (h : ∀ c ∈ l, c.isDigit = true) :
    l.takeWhile Char.isDigit = l := by
  rw [List.takeWhile_eq_self_iff]
  intro x hx
  exact h x hx

theorem jsParseInt_natToString (n : Nat) : jsParseIntStr (natToString n) = some (n : Int) := by
  have hne := natChars_ne_nil n
  have hdigs0 := natChars_digits n
  obtain ⟨c, cs, hcons⟩ : ∃ c cs, natChars n = c :: cs := by
    cases h : natChars n with
    | nil => exact absurd h hne
    | cons c cs => exact ⟨c, cs, rfl⟩
  have hdigs : ∀ x ∈ c :: cs, x.isDigit = true := by
    rw [← hcons]
    exact hdigs0
  have hc : c.isDigit = true := hdigs c (by simp)
  have hsp : (c == ' ') = false := by
    by_cases h : c = ' '
    · rw [h] at hc
      exact absurd hc (by decide)
    · simp [h]
  have hminus : ¬(c = '-') := by
    intro h
    rw [h] at hc
    exact absurd hc (by decide)
  have hplus : ¬(c = '+') := by
    intro h
    rw [h] at hc
    exact absurd hc (by decide)
  have hdata : (natToString n).data = c :: cs := by
    simp [natToString, hcons]
  unfold jsParseIntStr
  rw [hdata, List.dropWhile_cons, hsp]
  simp only [Bool.false_eq_true, if_false, List.head?_cons, Option.some.injEq,
    if_neg hminus, if_neg hplus]
  rw [takeWhile_all_digits (c :: cs) hdigs]
  simp only [List.isEmpty_cons, Bool.false_eq_true, if_false, Bool.false_eq_true]
  rw [← hcons, digitsVal_natChars]

theorem computeLimit_natToString (n : Nat) :
    computeLimit (some (natToString n)) = if (n : Int) = 0 then 10 else (n : Int) := by
  simp only [computeLimit, jsParseIntOpt, jsParseInt_natToString]

theorem validBody_eq_true {b : Body} (hv : validBody b = true) :
    (isMissing b.waterLevel || isMissing b.temperatureCelsius ||
      isMissing b.temperatureFahrenheit) = false := by
  cases h : (isMissing b.waterLevel || isMissing b.temperatureCelsius ||
      isMissing b.temperatureFahrenheit)
  · rfl
  · unfold validBody at hv
    rw [h] at hv
    exact absurd hv (by decide)

theorem validBody_eq_false {b : Body} (hv : validBody b = false) :
    (isMissing b.waterLevel || isMissing b.temperatureCelsius ||
      isMissing b.temperatureFahrenheit) = true := by
  cases h : (isMissing b.waterLevel || isMissing b.temperatureCelsius ||
      isMissing b.temperatureFahrenheit)
  · unfold validBody at hv
    rw [h] at hv
    exact absurd hv (by decide)
  · rfl

/-! Case-reduction lemmas for the handlers. -/

theorem postSensorData_invalid (env : ReqEnv) (b : Body) (st : ServerState)
    (hv : validBody b = false) :
    postSensorData env b st =
      ({ status := 400
         body := RespBody.failure
           "Missing required fields: waterLevel, temperatureCelsius, or temperatureFahrenheit" },
        st) := by
  have hv2 := validBody_eq_false hv
  unfold postSensorData
  rw [hv2]
  simp

theorem postSensorData_valid_local (env : ReqEnv) (b : Body) (st : ServerState)
    (hv : validBody b = true) (hdb : (env.dbConnected && !env.dbFail) = false) :
    postSensorData env b st =
      ({ status := 200
         body := RespBody.postSuccess "Data stored locally (fallback)" (mkEntry env b) },
        { st with sensorData := localStoreInsert (mkEntry env b) st.sensorData }) := by
  have hv2 := validBody_eq_true hv
  unfold postSensorData
  rw [hv2, hdb]
  simp

theorem postSensorData_valid_db (env : ReqEnv) (b : Body) (st : ServerState)
    (hv : validBody b = true) (hdb : (env.dbConnected && !env.dbFail) = true) :
    postSensorData env b st =
      ({ status := 200
         body := RespBody.postSuccess "Data stored successfully (db)"
           { waterLevel := (mkEntry env b).waterLevel
             temperatureCelsius := (mkEntry env b).temperatureCelsius
             temperatureFahrenheit := (mkEntry env b).temperatureFahrenheit
             timestamp := (mkEntry env b).timestamp
             id := env.dbObjectId } },
        { st with
          dbData :=
            { waterLevel := (mkEntry env b).waterLevel
              temperatureCelsius := (mkEntry env b).temperatureCelsius
              temperatureFahrenheit := (mkEntry env b).temperatureFahrenheit
              istTimestamp := (mkEntry env b).timestamp
              oid := env.dbObjectId } :: st.dbData }) := by
  have hv2 := validBody_eq_true hv
  unfold postSensorData
  rw [hv2, hdb]
  simp [docToReading]

theorem getSensorData_local (env : ReqEnv) (q : Option String) (st : ServerState)
    (hdb : (env.dbConnected && !env.dbFail) = false) :
    getSensorData env q st =
      ({ status := 200, body := RespBody.listData (jsSlice (computeLimit q) st.sensorData) },
        st) := by
  unfold getSensorData
  rw [hdb]
  simp

theorem getSensorData_db (env : ReqEnv) (q : Option String) (st : ServerState)
    (hdb : (env.dbConnected && !env.dbFail) = true) :
    getSensorData env q st =
      ({ status := 200
         body := RespBody.listData ((mongoLimit (computeLimit q) st.dbData).map docToReading) },
        st) := by
  unfold getSensorData
  rw [hdb]
  simp

theorem getLatest_db_doc (env : ReqEnv) (st : ServerState)
    (hdb : (env.dbConnected && !env.dbFail) = true) (d : DbDoc) (ds : List DbDoc)
    (h : st.dbData = d :: ds) :
    getLatestSensorData env st =
      ({ status := 200, body := RespBody.latestData (docToReading d) }, st) := by
  unfold getLatestSensorData
  rw [hdb, h]
  simp

theorem getLatest_local (env : ReqEnv) (st : ServerState)
    (hfall : (env.dbConnected && !env.dbFail) = false ∨ st.dbData = []) :
    getLatestSensorData env st = localLatestResp st := by
  unfold getLatestSensorData
  cases hdb : (env.dbConnected && !env.dbFail) with
  | false => simp
  | true =>
    rcases hfall with h | h
    · rw [hdb] at h
      exact absurd h (by decide)
    · rw [h]
      simp

theorem localLatestResp_cons (st : ServerState) (r : Reading) (rs : List Reading)
    (h : st.sensorData = r :: rs) :
    localLatestResp st = ({ status := 200, body := RespBody.latestData r }, st) := by
  unfold localLatestResp
  rw [h]
  simp

theorem localLatestResp_nil (st : ServerState) (h : st.sensorData = []) :
    localLatestResp st =
      ({ status := 404, body := RespBody.failure "No data available" }, st) := by
  unfold localLatestResp
  rw [h]
  simp

theorem localLatestResp_snd (st : ServerState) : (localLatestResp st).2 = st := by
  unfold localLatestResp
  cases h : st.sensorData.head? <;> simp

theorem localStoreInsert_head (r : Reading) (l : List Reading) :
    (localStoreInsert r l).head? = some r := by
  simp only [localStoreInsert]
  by_cases h : (r :: l).length > 100
  · rw [if_pos h, show (100 : Nat) = 99 + 1 from rfl, List.take_succ_cons, List.head?_cons]
  · rw [if_neg h, List.head?_cons]

/-- Claim C10: the two read handlers never mutate the server state — in
particular the local buffer is identical before and after GET
/api/sensor-data and GET /api/sensor-data/latest, for every state and
regardless of durable-store liveness or query outcome. -/
theorem C10_get_no_mutation (env : ReqEnv) (q : Option String) (st : ServerState) :
    (getSensorData env q st).2 = st ∧ (getLatestSensorData env st).2 = st := by
  constructor
  · cases hdb : (env.dbConnected && !env.dbFail)
    · rw [getSensorData_local env q st hdb]
    · rw [getSensorData_db env q st hdb]
  · cases hdb : (env.dbConnected && !env.dbFail)
    · rw [getLatest_local env st (Or.inl hdb)]
      exact localLatestResp_snd st
    · cases hd : st.dbData with
      | nil =>
        rw [getLatest_local env st (Or.inr hd)]
        exact localLatestResp_snd st
      | cons d ds =>
        rw [getLatest_db_doc env st hdb d ds hd]

/-- Claim C1: for every POST /api/sensor-data request with all three fields
present, if the durable create fails the handler stores the already-stamped
reading in the local buffer and responds HTTP 200 with it; the durable store
is untouched; and no durable-backend failure is ever surfaced as an error
response — the list handler answers 200 in every environment. -/
theorem C1_durable_failures_absorbed (env : ReqEnv) (b : Body) (st : ServerState)
    (hv : validBody b = true) (hc : env.dbConnected = true) (hf : env.dbFail = true) :
    (postSensorData env b st).1.status = 200 ∧
    (postSensorData env b st).1.body =
      RespBody.postSuccess "Data stored locally (fallback)" (mkEntry env b) ∧
    (postSensorData env b st).2.sensorData =
      localStoreInsert (mkEntry env b) st.sensorData ∧
    (postSensorData env b st).2.dbData = st.dbData ∧
    (∀ env2 q st2, (getSensorData env2 q st2).1.status = 200) := by
  have hdb : (env.dbConnected && !env.dbFail) = false := by
    rw [hc, hf]
    rfl
  rw [postSensorData_valid_local env b st hv hdb]
  refine ⟨rfl, rfl, rfl, rfl, ?_⟩
  intro env2 q st2
  cases hdb2 : (env2.dbConnected && !env2.dbFail)
  · rw [getSensorData_local env2 q st2 hdb2]
  · rw [getSensorData_db env2 q st2 hdb2]

/-- Witness for claim C1 at a concrete valid request against a connected but
failing durable store. -/
theorem C1_durable_failures_absorbed_witness :
    (postSensorData envLiveFail bodyW emptyState).1.status = 200 ∧
    (postSensorData envLiveFail bodyW emptyState).2.sensorData =
      localStoreInsert (mkEntry envLiveFail bodyW) [] := by
  have h := C1_durable_failures_absorbed envLiveFail bodyW emptyState (by decide) rfl rfl
  exact ⟨h.1, h.2.2.1⟩

/-- Claim C4: POST /api/sensor-data responds 400 with a success-false body
iff at least one of the three fields is missing or null; zero and negative
numeric values are accepted (a present number is never missing, so the
response is 200); and a 400 response leaves both backends untouched. -/
theorem C4_validation_iff (env : ReqEnv) (b : Body) (st : ServerState) :
    ((postSensorData env b st).1.status = 400 ↔
      (isMissing b.waterLevel = true ∨ isMissing b.temperatureCelsius = true ∨
        isMissing b.temperatureFahrenheit = true)) ∧
    ((postSensorData env b st).1.status = 400 →
      (postSensorData env b st).2 = st ∧
      isFailureBody (postSensorData env b st).1.body = true) ∧
    ((postSensorData env b st).1.status = 400 ∨ (postSensorData env b st).1.status = 200) := by
  cases hv : validBody b
  · rw [postSensorData_invalid env b st hv]
    have h2 := validBody_eq_false hv
    have hmiss : isMissing b.waterLevel = true ∨ isMissing b.temperatureCelsius = true ∨
        isMissing b.temperatureFahrenheit = true := by
      simp only [Bool.or_eq_true] at h2
      rcases h2 with (h | h) | h
      · exact Or.inl h
      · exact Or.inr (Or.inl h)
      · exact Or.inr (Or.inr h)
    exact ⟨⟨fun _ => hmiss, fun _ => rfl⟩, fun _ => ⟨rfl, rfl⟩, Or.inl rfl⟩
  · have h2 := validBody_eq_true hv
    have hmiss : ¬(isMissing b.waterLevel = true ∨ isMissing b.temperatureCelsius = true ∨
        isMissing b.temperatureFahrenheit = true) := by
      intro h
      rcases h with h | h | h <;> rw [h] at h2 <;> simp at h2
    cases hdb : (env.dbConnected && !env.dbFail)
    · rw [postSensorData_valid_local env b st hv hdb]
      exact ⟨⟨fun h => absurd h (by simp), fun h => absurd h hmiss⟩,
        fun h => absurd h (by simp), Or.inr rfl⟩
    · rw [postSensorData_valid_db env b st hv hdb]
      exact ⟨⟨fun h => absurd h (by simp), fun h => absurd h hmiss⟩,
        fun h => absurd h (by simp), Or.inr rfl⟩

/-- Witness for claim C4: a request missing the Celsius field gets 400 with
no state change, and a request carrying zero and a negative number gets
200. -/
theorem C4_validation_iff_witness :
    (postSensorData envDown bodyNoCelsius emptyState).1.status = 400 ∧
    (postSensorData envDown bodyNoCelsius emptyState).2 = emptyState ∧
    (postSensorData envDown (numBody 0 (-5) 0) emptyState).1.status = 200 := by
  have h1 := C4_validation_iff envDown bodyNoCelsius emptyState
  have h2 := C4_validation_iff envDown (numBody 0 (-5) 0) emptyState
  have h400 : (postSensorData envDown bodyNoCelsius emptyState).1.status = 400 :=
    h1.1.mpr (Or.inr (Or.inl rfl))
  refine ⟨h400, (h1.2.1 h400).1, ?_⟩
  rcases h2.2.2 with h | h
  · exact absurd (h2.1.mp h) (by decide)
  · exact h

/-- Claim C5 (amended): GET /api/sensor-data/latest returns the durable
newest reading whenever the store is live and the query succeeds with a
reading, without consulting the local buffer; it returns the buffer front
exactly when the durable store is unavailable, erroring, or empty; and it
responds 404 iff the durable store yields no reading (unavailable, erroring,
or empty) AND the local buffer is empty — so a 404 can occur while readings
still exist in an erroring durable backend. -/
theorem C5_latest_amended (env : ReqEnv) (st : ServerState) :
    (env.dbConnected = true → env.dbFail = false → ∀ d ds, st.dbData = d :: ds →
      (getLatestSensorData env st).1 =
        { status := 200, body := RespBody.latestData (docToReading d) }) ∧
    ((env.dbConnected = false ∨ env.dbFail = true ∨ st.dbData = []) →
      ∀ r rs, st.sensorData = r :: rs →
      (getLatestSensorData env st).1 = { status := 200, body := RespBody.latestData r }) ∧
    ((getLatestSensorData env st).1.status = 404 ↔
      ((env.dbConnected = false ∨ env.dbFail = true ∨ st.dbData = []) ∧
        st.sensorData = [])) := by
  obtain ⟨dbD, sensD⟩ := st
  by_cases hdb : (env.dbConnected && !env.dbFail) = true
  · have hdbc : env.dbConnected = true := by
      cases hc : env.dbConnected
      · rw [hc] at hdb
        simp at hdb
      · rfl
    have hdbf : env.dbFail = false := by
      cases hf : env.dbFail
      · rfl
      · rw [hdbc, hf] at hdb
        simp at hdb
    cases dbD with
    | nil =>
      have hloc := getLatest_local env ⟨[], sensD⟩ (Or.inr rfl)
      refine ⟨?_, ?_, ?_⟩
      · intro _ _ d ds hcons
        have h2 : ([] : List DbDoc) = d :: ds := hcons
        simp at h2
      · intro _ r rs hs
        rw [hloc, localLatestResp_cons _ r rs hs]
      · rw [hloc]
        cases sensD with
        | nil =>
          rw [localLatestResp_nil _ rfl]
          exact ⟨fun _ => ⟨Or.inr (Or.inr rfl), rfl⟩, fun _ => rfl⟩
        | cons r rs =>
          rw [localLatestResp_cons _ r rs rfl]
          constructor
          · intro h
            exact absurd h (by simp)
          · intro h
            simp at h
    | cons d0 ds0 =>
      rw [getLatest_db_doc env ⟨d0 :: ds0, sensD⟩ hdb d0 ds0 rfl]
      refine ⟨?_, ?_, ?_⟩
      · intro _ _ d ds hcons
        have h2 : d0 :: ds0 = d :: ds := hcons
        injection h2 with h3 h4
        rw [h3]
      · intro h
        rcases h with h | h | h
        · rw [hdbc] at h
          cases h
        · rw [hdbf] at h
          cases h
        · have h2 : d0 :: ds0 = ([] : List DbDoc) := h
          simp at h2
      · constructor
        · intro h
          exact absurd h (by simp)
        · intro h
          rcases h.1 with h1 | h1 | h1
          · rw [hdbc] at h1
            cases h1
          · rw [hdbf] at h1
            cases h1
          · have h2 : d0 :: ds0 = ([] : List DbDoc) := h1
            simp at h2
  · have hdb2 : (env.dbConnected && !env.dbFail) = false := by
      cases h : (env.dbConnected && !env.dbFail)
      · rfl
      · exact absurd h hdb
    have hfall2 : env.dbConnected = false ∨ env.dbFail = true := by
      cases hc : env.dbConnected
      · exact Or.inl rfl
      · cases hf : env.dbFail
        · rw [hc, hf] at hdb2
          exact absurd hdb2 (by decide)
        · exact Or.inr rfl
    have hloc := getLatest_local env ⟨dbD, sensD⟩ (Or.inl hdb2)
    refine ⟨?_, ?_, ?_⟩
    · intro hc hf d ds hcons
      rw [hc, hf] at hdb2
      exact absurd hdb2 (by decide)
    · intro _ r rs hs
      rw [hloc, localLatestResp_cons _ r rs hs]
    · rw [hloc]
      cases sensD with
      | nil =>
        rw [localLatestResp_nil _ rfl]
        refine ⟨fun _ => ⟨?_, rfl⟩, fun _ => rfl⟩
        rcases hfall2 with h | h
        · exact Or.inl h
        · exact Or.inr (Or.inl h)
      | cons r rs =>
        rw [localLatestResp_cons _ r rs rfl]
        constructor
        · intro h
          exact absurd h (by simp)
        · intro h
          simp at h

/-- Counterexample to claim C5 as stated: the durable store is connected but
its query errors while it holds a document, the local buffer is empty, and
the handler responds 404 — yet data exists in a backend, refuting the
404-iff-no-data-in-either-backend reading. -/
theorem C5_counterexample :
    (getLatestSensorData envLiveFail stDbOnly).1.status = 404 ∧ stDbOnly.dbData ≠ [] := by
  constructor
  · decide
  · decide

/-- Witness for claim C5 at concrete inputs: the durable document wins when
the store is live, the buffer front is served when it is down, and both
backends empty yield 404. -/
theorem C5_latest_amended_witness :
    (getLatestSensorData envLive { dbData := [docW], sensorData := [mkR 7] }).1 =
      { status := 200, body := RespBody.latestData (docToReading docW) } ∧
    (getLatestSensorData envDown stLocalOnly).1 =
      { status := 200, body := RespBody.latestData (mkR 7) } ∧
    (getLatestSensorData envDown emptyState).1.status = 404 := by
  have h1 := C5_latest_amended envLive { dbData := [docW], sensorData := [mkR 7] }
  have h2 := C5_latest_amended envDown stLocalOnly
  have h3 := C5_latest_amended envDown emptyState
  exact ⟨h1.1 rfl rfl docW [] rfl, h2.2.1 (Or.inl rfl) (mkR 7) [] rfl,
    h3.2.2.mpr ⟨Or.inl rfl, rfl⟩⟩

/-- Claim C6 (amended): for GET /api/sensor-data the limit defaults to 10
when the parameter is unspecified, non-numeric, or zero; a negative parsed
value is NOT defaulted — it is passed through, and on the local-buffer path
the slice then drops the last abs(limit) entries; for positive limits the
response is the first limit entries in newest-first order, and an empty
store yields an empty list, never an error. -/
theorem C6_limit_amended (env : ReqEnv) (q : Option String) (st : ServerState)
    (hdown : env.dbConnected = false) :
    (getSensorData env q st).1.status = 200 ∧
    (jsParseIntOpt q = none →
      (getSensorData env q st).1.body = RespBody.listData (st.sensorData.take 10)) ∧
    (jsParseIntOpt q = some 0 →
      (getSensorData env q st).1.body = RespBody.listData (st.sensorData.take 10)) ∧
    (∀ v : Int, jsParseIntOpt q = some v → 0 < v →
      (getSensorData env q st).1.body = RespBody.listData (st.sensorData.take v.toNat)) ∧
    (∀ v : Int, jsParseIntOpt q = some v → v < 0 →
      (getSensorData env q st).1.body =
        RespBody.listData (st.sensorData.take (st.sensorData.length - v.natAbs))) ∧
    (st.sensorData = [] → (getSensorData env q st).1.body = RespBody.listData []) := by
  have hdb : (env.dbConnected && !env.dbFail) = false := by
    rw [hdown]
    rfl
  rw [getSensorData_local env q st hdb]
  refine ⟨rfl, ?_, ?_, ?_, ?_, ?_⟩
  · intro h
    simp only [computeLimit, h, jsSlice]
    norm_num
    omega
  · intro h
    simp only [computeLimit, h, if_pos rfl, jsSlice]
    norm_num
    omega
  · intro v hv hpos
    simp only [computeLimit, hv]
    rw [if_neg (by omega)]
    simp only [jsSlice]
    rw [if_pos (by omega)]
  · intro v hv hneg
    simp only [computeLimit, hv]
    rw [if_neg (by omega)]
    simp only [jsSlice]
    rw [if_neg (by omega)]
  · intro h
    rw [h]
    simp only [jsSlice]
    split <;> simp

/-- Witness for claim C6: a numeric positive limit takes that many newest
entries and an absent parameter defaults to 10. -/
theorem C6_limit_amended_witness :
    (getSensorData envDown (some "5") st3).1.status = 200 ∧
    (getSensorData envDown (some "5") st3).1.body =
      RespBody.listData (st3.sensorData.take 5) ∧
    (getSensorData envDown none st3).1.body = RespBody.listData (st3.sensorData.take 10) := by
  have h1 := C6_limit_amended envDown (some "5") st3 rfl
  have h2 := C6_limit_amended envDown none st3 rfl
  exact ⟨h1.1, h1.2.2.2.1 5 (by decide) (by decide), h2.2.1 rfl⟩

/-- Counterexample to claim C6 as stated: with three buffered readings and
query limit -1 (durable store down), the handler does not default to 10 —
which would return all three readings — but keeps -1, and the slice drops
the last entry, returning only the first two. -/
theorem C6_counterexample :
    (getSensorData envDown (some "-1") st3).1.body = RespBody.listData [mkR 0, mkR 1] ∧
    st3.sensorData.take 10 = [mkR 0, mkR 1, mkR 2] ∧
    RespBody.listData [mkR 0, mkR 1] ≠ RespBody.listData [mkR 0, mkR 1, mkR 2] := by
  refine ⟨by decide, by decide, by decide⟩

/-- Claim C8: for every valid numeric create, in every environment, the
Reading returned in latestData carries exactly the posted waterLevel,
temperatureCelsius and temperatureFahrenheit values — pure pass-through with
no server-side relation between Fahrenheit and Celsius. -/
theorem C8_numeric_passthrough (env : ReqEnv) (st : ServerState) (a b c : Rat) :
    (postSensorData env (numBody a b c) st).1.status = 200 ∧
    (latestOf (postSensorData env (numBody a b c) st).1.body).map
        (fun r => (r.waterLevel, r.temperatureCelsius, r.temperatureFahrenheit)) =
      some (JSNum.num a, JSNum.num b, JSNum.num c) := by
  have hv : validBody (numBody a b c) = true := rfl
  cases hdb : (env.dbConnected && !env.dbFail)
  · rw [postSensorData_valid_local env _ st hv hdb]
    exact ⟨rfl, rfl⟩
  · rw [postSensorData_valid_db env _ st hv hdb]
    exact ⟨rfl, rfl⟩

/-- Claim C9: a POST body whose three fields are present but not
numeric-coercible (the string abc) passes validation, is accepted with HTTP
200 in every environment, and the stored reading's numeric fields are all
NaN — validation checks only presence (undefined/null), not numeric-ness. -/
theorem C9_presence_only_validation (env : ReqEnv) (st : ServerState) :
    validBody abcBody = true ∧
    (postSensorData env abcBody st).1.status = 200 ∧
    (latestOf (postSensorData env abcBody st).1.body).map
        (fun r => (r.waterLevel, r.temperatureCelsius, r.temperatureFahrenheit)) =
      some (JSNum.nan, JSNum.nan, JSNum.nan) ∧
    (env.dbConnected = false →
      (postSensorData env abcBody st).2.sensorData.head? = some (mkEntry env abcBody) ∧
      (mkEntry env abcBody).waterLevel = JSNum.nan) := by
  have hv : validBody abcBody = true := rfl
  have hnan : jsNumberOpt (some (BodyVal.vstr "abc")) = JSNum.nan := by decide
  cases hdb : (env.dbConnected && !env.dbFail)
  · rw [postSensorData_valid_local env _ st hv hdb]
    refine ⟨rfl, rfl, ?_, ?_⟩
    · simp [latestOf, mkEntry, abcBody, hnan]
    · intro _
      exact ⟨localStoreInsert_head _ _, hnan⟩
  · rw [postSensorData_valid_db env _ st hv hdb]
    refine ⟨rfl, rfl, ?_, ?_⟩
    · simp [latestOf, mkEntry, abcBody, hnan]
    · intro h
      rw [h] at hdb
      simp at hdb

/-- Witness for claim C9 at a concrete offline environment: the abc body is
accepted and the stored reading has NaN fields. -/
theorem C9_presence_only_validation_witness :
    (postSensorData envDown abcBody emptyState).1.status = 200 ∧
    (postSensorData envDown abcBody emptyState).2.sensorData.head? =
      some (mkEntry envDown abcBody) ∧
    (mkEntry envDown abcBody).waterLevel = JSNum.nan := by
  have h := C9_presence_only_validation envDown emptyState
  exact ⟨h.2.1, (h.2.2.2 rfl).1, (h.2.2.2 rfl).2⟩

theorem postSeq_offline (inputs : List (ReqEnv × Body)) :
    ∀ st : ServerState,
      (∀ x ∈ inputs, x.1.dbConnected = false) →
      (∀ x ∈ inputs, validBody x.2 = true) →
      postSeq inputs st =
        { dbData := st.dbData
          sensorData := insertAll (inputs.map (fun x => mkEntry x.1 x.2)) st.sensorData } := by
  induction inputs with
  | nil =>
    intro st _ _
    simp [postSeq, insertAll]
  | cons x xs ih =>
    intro st hdown hval
    have hdb : (x.1.dbConnected && !x.1.dbFail) = false := by
      rw [hdown x (by simp)]
      rfl
    have hpost := postSensorData_valid_local x.1 x.2 st (hval x (by simp)) hdb
    have hstep : postSeq (x :: xs) st = postSeq xs (postSensorData x.1 x.2 st).2 := rfl
    rw [hstep, hpost,
      ih _ (fun y hy => hdown y (by simp [hy])) (fun y hy => hval y (by simp [hy]))]
    simp [insertAll]

/-- Claim C7 (amended): with the durable store unreachable for the whole
session, N valid creates — N at most the buffer capacity of 100 — followed
by a list with limit N return exactly those N readings in reverse creation
order, all served from the local buffer, and the durable store stays
untouched (empty). For N above 100 the buffer cap evicts the oldest
readings, so only the newest 100 come back. -/
theorem C7_offline_session_amended (inputs : List (ReqEnv × Body)) (genv : ReqEnv)
    (hdown : ∀ x ∈ inputs, x.1.dbConnected = false)
    (hval : ∀ x ∈ inputs, validBody x.2 = true)
    (hlen : inputs.length ≤ 100)
    (hgd : genv.dbConnected = false) :
    (getSensorData genv (some (natToString inputs.length)) (postSeq inputs emptyState)).1 =
      { status := 200
        body := RespBody.listData ((inputs.map (fun x => mkEntry x.1 x.2)).reverse) } ∧
    (postSeq inputs emptyState).dbData = [] := by
  have hps := postSeq_offline inputs emptyState hdown hval
  have hbuf : (postSeq inputs emptyState).sensorData =
      (inputs.map (fun x => mkEntry x.1 x.2)).reverse := by
    rw [hps]
    show insertAll (inputs.map (fun x => mkEntry x.1 x.2)) [] = _
    rw [insertAll_eq _ [] (by simp), List.append_nil,
      List.take_of_length_le (by simpa using hlen)]
  have hdbl : (postSeq inputs emptyState).dbData = [] := by
    rw [hps]
    rfl
  refine ⟨?_, hdbl⟩
  have hdb : (genv.dbConnected && !genv.dbFail) = false := by
    rw [hgd]
    rfl
  rw [getSensorData_local genv _ _ hdb, hbuf, computeLimit_natToString]
  by_cases hN : inputs.length = 0
  · have hnil : inputs = [] := List.length_eq_zero.mp hN
    subst hnil
    simp [jsSlice]
  · rw [if_neg (by exact_mod_cast hN)]
    simp only [jsSlice]
    rw [if_pos (by omega), Int.toNat_ofNat, List.take_of_length_le (by simp)]

/-- Witness for claim C7 at a concrete two-request offline session. -/
theorem C7_offline_session_amended_witness :
    (getSensorData envDown (some (natToString inputs2.length)) (postSeq inputs2 emptyState)).1 =
      { status := 200
        body := RespBody.listData ((inputs2.map (fun x => mkEntry x.1 x.2)).reverse) } ∧
    (postSeq inputs2 emptyState).dbData = [] :=
  C7_offline_session_amended inputs2 envDown (by decide) (by decide) (by decide) rfl

set_option maxRecDepth 100000 in
/-- Counterexample to claim C7 as stated: 101 valid creates with the durable
store down followed by a list with limit 101 return only the 100 newest
readings — not the 101 created ones in reverse creation order — because the
buffer cap evicted the first one. -/
theorem C7_counterexample :
    dataOf (getSensorData envDown (some "101") (postSeq inputs101 emptyState)).1.body =
      some (List.replicate 100 (mkEntry envDown bodyW)) ∧
    dataOf (getSensorData envDown (some "101") (postSeq inputs101 emptyState)).1.body ≠
      some ((inputs101.map (fun x => mkEntry x.1 x.2)).reverse) := by
  constructor
  · decide
  · decide
